import Mathlib

/-!
Verification of the web3-proxy request-routing engine.

This file embeds the routing, caching, single-flight, error-handling and
accounting logic of the proxy (src/web3_proxy/src/app.rs, rpcs/request.rs,
errors.rs, frontend/errors.rs, compute_units.rs) as executable Lean
definitions and proves the specification claims about them.
-/

namespace Web3Proxy

/-- JSON values, the shape of `serde_json::Value` as used by the router. -/
inductive JsonValue
  | null
  | bool (b : Bool)
  | num (n : Nat)
  | str (s : String)
  | arr (xs : List JsonValue)

mutual

/-- Serialization of a JSON value, standing in for `serde_json::to_string`
(used only to build the canonical-params component of cache keys). -/
def JsonValue.serialize : JsonValue → String
  | JsonValue.null => "null"
  | JsonValue.bool true => "true"
  | JsonValue.bool false => "false"
  | JsonValue.num n => toString n
  | JsonValue.str s => "\"" ++ s ++ "\""
  | JsonValue.arr xs => "[" ++ JsonValue.serializeList xs ++ "]"

/-- Comma-separated serialization of a list of JSON values. -/
def JsonValue.serializeList : List JsonValue → String
  | [] => ""
  | [x] => JsonValue.serialize x
  | x :: y :: xs => JsonValue.serialize x ++ "," ++ JsonValue.serializeList (y :: xs)

end

/-- 256-bit hashes (`H256`), modelled as natural numbers below `2^256`.
None of the routing logic does arithmetic on hashes, so we use `Nat`. -/
abbrev H256 := Nat

/-- `type CacheKey = (H256, String, Option<String>)` from app.rs:
block hash, method, serialized params. -/
abbrev CacheKey := H256 × String × Option String

/-- Identifier of one single-flight notifier (a `watch::Receiver<bool>`).
Distinct leaders create distinct channels; we only need identity. -/
abbrev Notifier := Nat

/-- `type ActiveRequestsMap = DashMap<CacheKey, watch::Receiver<bool>>`,
modelled as an association list of key/notifier entries. -/
abbrev ActiveRequestsMap := List (CacheKey × Notifier)

/-- `DashMap::get`-style lookup of the notifier stored under a key. -/
def lookupNotifier (reg : ActiveRequestsMap) (k : CacheKey) : Option Notifier :=
  (reg.find? (fun p => decide (p.1 = k))).map Prod.snd

/-- The `active_requests.entry(cache_key)` probe from app.rs lines 826-833:
if the key is occupied, return the existing receiver (follower case);
if it is vacant, insert the caller's receiver (leader case). -/
def activeRequestsEntry (reg : ActiveRequestsMap) (k : CacheKey) (rx : Notifier) :
    ActiveRequestsMap × Option Notifier :=
  match lookupNotifier reg k with
  | some other => (reg, some other)
  | none => ((k, rx) :: reg, none)

/-- `active_requests.remove(&cache_key)` from app.rs. -/
def activeRequestsRemove (reg : ActiveRequestsMap) (k : CacheKey) : ActiveRequestsMap :=
  reg.filter (fun p => decide (p.1 ≠ k))

/-- The operations the router performs on the in-flight registry. -/
inductive RegOp
  | entry (k : CacheKey) (rx : Notifier)
  | remove (k : CacheKey)

/-- Apply one registry operation. -/
def applyRegOp (reg : ActiveRequestsMap) : RegOp → ActiveRequestsMap
  | RegOp.entry k rx => (activeRequestsEntry reg k rx).1
  | RegOp.remove k => activeRequestsRemove reg k

/-- Apply a sequence of registry operations, oldest first. -/
def applyRegOps (ops : List RegOp) (reg : ActiveRequestsMap) : ActiveRequestsMap :=
  ops.foldl applyRegOp reg

/-- Number of notifiers held under key `k`. -/
def countKey (reg : ActiveRequestsMap) (k : CacheKey) : Nat :=
  (reg.filter (fun p => decide (p.1 = k))).length

/-- The registry invariant: at most one notifier per key. -/
def atMostOnePerKey (reg : ActiveRequestsMap) : Prop :=
  ∀ k : CacheKey, countKey reg k ≤ 1

lemma countKey_eq_zero_of_lookup_none (reg : ActiveRequestsMap) (k : CacheKey)
    (h : lookupNotifier reg k = none) : countKey reg k = 0 := by
  unfold lookupNotifier at h
  unfold countKey
  rcases hf : reg.find? (fun p => decide (p.1 = k)) with _ | v
  · rw [List.find?_eq_none] at hf
    rw [List.length_eq_zero, List.filter_eq_nil_iff]
    intro a ha
    exact hf a ha
  · rw [hf] at h
    simp at h

lemma countKey_cons (k : CacheKey) (rx : Notifier) (reg : ActiveRequestsMap) (q : CacheKey) :
    countKey ((k, rx) :: reg) q = (if k = q then 1 else 0) + countKey reg q := by
  unfold countKey
  by_cases h : k = q
  · simp [List.filter_cons, h]
    omega
  · simp [List.filter_cons, h]

lemma atMostOnePerKey_entry (reg : ActiveRequestsMap) (k : CacheKey) (rx : Notifier)
    (h : atMostOnePerKey reg) : atMostOnePerKey (activeRequestsEntry reg k rx).1 := by
  unfold activeRequestsEntry
  rcases hl : lookupNotifier reg k with _ | other
  · intro q
    rw [countKey_cons]
    by_cases hq : k = q
    · have hz := countKey_eq_zero_of_lookup_none reg k hl
      subst hq
      simp [hz]
    · simpa [hq] using h q
  · exact h

lemma atMostOnePerKey_remove (reg : ActiveRequestsMap) (k : CacheKey)
    (h : atMostOnePerKey reg) : atMostOnePerKey (activeRequestsRemove reg k) := by
  intro q
  refine le_trans ?_ (h q)
  unfold countKey activeRequestsRemove
  exact List.Sublist.length_le (List.Sublist.filter _ (List.filter_sublist reg))

lemma atMostOnePerKey_applyRegOps (ops : List RegOp) :
    ∀ reg : ActiveRequestsMap, atMostOnePerKey reg → atMostOnePerKey (applyRegOps ops reg) := by
  induction ops with
  | nil => intro reg h; exact h
  | cons op rest ih =>
    intro reg h
    cases op with
    | entry k rx => exact ih _ (atMostOnePerKey_entry reg k rx h)
    | remove k => exact ih _ (atMostOnePerKey_remove reg k h)

/-- Observable events of one task running the cached-dispatch sequence of
`proxy_web3_rpc_request` (app.rs lines 796-893), in program order. -/
inductive Ev
  | cacheRead
  | insertNotifier
  | waitNotifier
  | dispatchUpstream
  | cacheWrite
  | removeNotifier
  | signalWaiters
  deriving DecidableEq

/-- Opaque JSON-RPC response body (`JsonRpcForwardedResponse`). -/
abbrev Resp := String

/-- The environment one cached dispatch runs in: the consensus head hash,
the pool's block-hash lookup, what each cache read will observe, whether the
registry probe finds an existing notifier, and the upstream outcome.
These oracles stand for the shared state mutated by concurrent tasks. -/
structure DispatchEnv where
  headBlockHash : H256
  blockHash : Nat → Except String H256
  cache1 : Option Resp
  registryOccupied : Bool
  cache2 : Option Resp
  dispatchResult : Except String Resp

/-- `Web3ProxyApp::cached_response` (app.rs lines 594-636): compute the cache
key — `block_hash(min_block_needed)` when a minimum block is needed, else the
consensus `head_block_hash()` — and perform the first cache read. -/
def cachedResponse (env : DispatchEnv) (minBlockNeeded : Option Nat) (method : String)
    (paramsStr : Option String) : Except String (CacheKey × Option Resp) :=
  match minBlockNeeded with
  | some mb =>
    match env.blockHash mb with
    | Except.error e => Except.error e
    | Except.ok h => Except.ok ((h, method, paramsStr), env.cache1)
  | none => Except.ok ((env.headBlockHash, method, paramsStr), env.cache1)

/-- Result of one run of the cached-dispatch sequence: the cache key it
settled on (if key computation succeeded), the response or error returned,
and the trace of observable events in program order. -/
structure DispatchOut where
  key : Option CacheKey
  result : Except String Resp
  trace : List Ev

/-- The tail of the cached-dispatch sequence from the upstream dispatch on
(app.rs lines 862-892): dispatch; on error the `?` returns at once (no
notifier removal, no signal); on success write the cache, remove the
notifier, then signal `incoming_tx.send(false)`. -/
def finishDispatch (env : DispatchEnv) (t : List Ev) (key : CacheKey) : DispatchOut :=
  let t := t ++ [Ev.dispatchUpstream]
  match env.dispatchResult with
  | Except.error e => ⟨some key, Except.error e, t⟩
  | Except.ok resp =>
    ⟨some key, Except.ok resp, t ++ [Ev.cacheWrite, Ev.removeNotifier, Ev.signalWaiters]⟩

/-- The default (cached, balanced) branch of `proxy_web3_rpc_request`
(app.rs lines 796-893): compute key and read the cache; on hit remove the
registry entry and return; on miss probe the registry entry — occupied means
follower (wait on the other notifier, re-read the cache, return on hit),
vacant means leader (insert own notifier); then dispatch upstream. -/
def proxyDefaultBranch (env : DispatchEnv) (minBlockNeeded : Option Nat) (method : String)
    (paramsStr : Option String) : DispatchOut :=
  match cachedResponse env minBlockNeeded method paramsStr with
  | Except.error e => ⟨none, Except.error e, []⟩
  | Except.ok (key, some resp) => ⟨some key, Except.ok resp, [Ev.cacheRead, Ev.removeNotifier]⟩
  | Except.ok (key, none) =>
    if env.registryOccupied then
      match env.cache2 with
      | some cached =>
        ⟨some key, Except.ok cached,
          [Ev.cacheRead, Ev.waitNotifier, Ev.cacheRead, Ev.removeNotifier, Ev.signalWaiters]⟩
      | none => finishDispatch env [Ev.cacheRead, Ev.waitNotifier, Ev.cacheRead] key
    else
      finishDispatch env [Ev.cacheRead, Ev.insertNotifier] key

/-- `a` strictly precedes `b` in trace `t`: every occurrence of `a` is at a
smaller index than every occurrence of `b`. -/
def eventsOrdered (t : List Ev) (a b : Ev) : Prop :=
  ∀ i j : Fin t.length, t.get i = a → t.get j = b → (i : Nat) < (j : Nat)

instance (t : List Ev) (a b : Ev) : Decidable (eventsOrdered t a b) := by
  unfold eventsOrdered
  infer_instance

lemma proxyDefaultBranch_trace_cases (env : DispatchEnv) (minBlockNeeded : Option Nat)
    (method : String) (paramsStr : Option String) :
    (proxyDefaultBranch env minBlockNeeded method paramsStr).trace = [] ∨
    (proxyDefaultBranch env minBlockNeeded method paramsStr).trace =
      [Ev.cacheRead, Ev.removeNotifier] ∨
    (proxyDefaultBranch env minBlockNeeded method paramsStr).trace =
      [Ev.cacheRead, Ev.waitNotifier, Ev.cacheRead, Ev.removeNotifier, Ev.signalWaiters] ∨
    (proxyDefaultBranch env minBlockNeeded method paramsStr).trace =
      [Ev.cacheRead, Ev.waitNotifier, Ev.cacheRead, Ev.dispatchUpstream] ∨
    (proxyDefaultBranch env minBlockNeeded method paramsStr).trace =
      [Ev.cacheRead, Ev.waitNotifier, Ev.cacheRead, Ev.dispatchUpstream, Ev.cacheWrite,
        Ev.removeNotifier, Ev.signalWaiters] ∨
    (proxyDefaultBranch env minBlockNeeded method paramsStr).trace =
      [Ev.cacheRead, Ev.insertNotifier, Ev.dispatchUpstream] ∨
    (proxyDefaultBranch env minBlockNeeded method paramsStr).trace =
      [Ev.cacheRead, Ev.insertNotifier, Ev.dispatchUpstream, Ev.cacheWrite,
        Ev.removeNotifier, Ev.signalWaiters] := by
  unfold proxyDefaultBranch finishDispatch
  rcases cachedResponse env minBlockNeeded method paramsStr with e | ⟨key, _ | resp⟩
  · tauto
  · rcases henv : env.registryOccupied with _ | _
    · rcases env.dispatchResult with e | resp <;> simp
    · rcases env.cache2 with _ | cached
      · rcases env.dispatchResult with e | resp <;> simp
      · simp
  · tauto

/-- A concrete dispatch environment: cache misses, vacant registry,
successful upstream dispatch (used by witnesses). -/
def envLeaderOk : DispatchEnv :=
  ⟨77, fun n => Except.ok n, none, false, none, Except.ok ("0x10")⟩

/-- A concrete dispatch environment for a follower whose re-read misses:
cache misses, registry occupied, second read misses, dispatch succeeds. -/
def envFollowerMiss : DispatchEnv :=
  ⟨77, fun n => Except.ok n, none, true, none, Except.ok ("0x10")⟩

/-- C1: for every cache key the in-flight registry holds at most one
notifier at a time (any sequence of entry/remove operations starting from
the empty registry preserves this), and in every run of the cached-dispatch
sequence the notifier insertion precedes the upstream dispatch, every
notifier removal comes strictly after the cache write, and every removal
comes before the waiters are signalled. -/
theorem single_flight_notifier_unique_and_ordered :
    (∀ (ops : List RegOp) (k : CacheKey), countKey (applyRegOps ops []) k ≤ 1) ∧
    (∀ (env : DispatchEnv) (mb : Option Nat) (m : String) (p : Option String),
      eventsOrdered (proxyDefaultBranch env mb m p).trace Ev.insertNotifier Ev.dispatchUpstream ∧
      eventsOrdered (proxyDefaultBranch env mb m p).trace Ev.cacheWrite Ev.removeNotifier ∧
      eventsOrdered (proxyDefaultBranch env mb m p).trace Ev.removeNotifier Ev.signalWaiters) := by
  constructor
  · intro ops k
    exact atMostOnePerKey_applyRegOps ops [] (by intro q; simp [countKey]) k
  · intro env mb m p
    rcases proxyDefaultBranch_trace_cases env mb m p with h | h | h | h | h | h | h <;>
      rw [h] <;> exact ⟨by decide, by decide, by decide⟩

/-- Witness for C1 at concrete inputs: two entry operations on the same key
leave at most one notifier, and the leader trace with a successful dispatch
has the three orderings. -/
theorem single_flight_notifier_unique_and_ordered_witness :
    countKey (applyRegOps [RegOp.entry (5, ("eth_call"), none) 0,
      RegOp.entry (5, ("eth_call"), none) 1] []) (5, ("eth_call"), none) ≤ 1 ∧
    eventsOrdered (proxyDefaultBranch envLeaderOk none ("eth_call") none).trace
      Ev.insertNotifier Ev.dispatchUpstream :=
  ⟨single_flight_notifier_unique_and_ordered.1 _ _,
    (single_flight_notifier_unique_and_ordered.2 envLeaderOk none ("eth_call") none).1⟩

/-- C2 counterexample: a follower (registry occupied) whose re-read misses
dispatches upstream without ever inserting its own notifier, refuting the
claim that it "continues as a new leader attempt, i.e. it inserts its own
notifier into the in-flight registry before dispatching upstream". -/
theorem follower_does_not_reinsert_counterexample :
    Ev.waitNotifier ∈ (proxyDefaultBranch envFollowerMiss none ("eth_call") none).trace ∧
    Ev.dispatchUpstream ∈ (proxyDefaultBranch envFollowerMiss none ("eth_call") none).trace ∧
    Ev.insertNotifier ∉ (proxyDefaultBranch envFollowerMiss none ("eth_call") none).trace := by
  decide

/-- C2 (amended): a task that finds an existing notifier waits on it and
re-reads the cache; on a hit it returns the cached response; on a miss it
proceeds directly to the upstream dispatch WITHOUT inserting its own
notifier into the in-flight registry. -/
theorem follower_waits_rereads_then_dispatches_unregistered :
    ∀ (env : DispatchEnv) (mb : Option Nat) (m : String) (p : Option String) (k : CacheKey),
      cachedResponse env mb m p = Except.ok (k, none) →
      env.registryOccupied = true →
      (∀ c : Resp, env.cache2 = some c →
        (proxyDefaultBranch env mb m p).result = Except.ok c ∧
        (proxyDefaultBranch env mb m p).trace =
          [Ev.cacheRead, Ev.waitNotifier, Ev.cacheRead, Ev.removeNotifier, Ev.signalWaiters]) ∧
      (env.cache2 = none →
        Ev.waitNotifier ∈ (proxyDefaultBranch env mb m p).trace ∧
        Ev.dispatchUpstream ∈ (proxyDefaultBranch env mb m p).trace ∧
        Ev.insertNotifier ∉ (proxyDefaultBranch env mb m p).trace) := by
  intro env mb m p k hck hocc
  unfold proxyDefaultBranch finishDispatch
  rcases h3 : env.cache2 with _ | c <;>
    rcases h4 : env.dispatchResult with e | r2 <;>
    simp_all

/-- A concrete follower environment whose re-read after waiting hits. -/
def envFollowerHit : DispatchEnv :=
  ⟨77, fun n => Except.ok n, none, true, some ("0xabc"), Except.ok ("0x10")⟩

/-- Witness for the amended C2 at a concrete input: a follower whose re-read
hits returns the cached response without dispatching. -/
theorem follower_waits_rereads_then_dispatches_unregistered_witness :
    (proxyDefaultBranch envFollowerHit none ("eth_call") none).result =
      Except.ok ("0xabc") ∧
    (proxyDefaultBranch envFollowerHit none ("eth_call") none).trace =
      [Ev.cacheRead, Ev.waitNotifier, Ev.cacheRead, Ev.removeNotifier, Ev.signalWaiters] :=
  (follower_waits_rereads_then_dispatches_unregistered envFollowerHit none ("eth_call") none
    (77, ("eth_call"), none) rfl rfl).1 ("0xabc") rfl

/-- C3 counterexample: for a request with no determinable minimum block
(`min_block_needed = None`) the dispatcher still reads the cache, still
claims a single-flight slot and still writes the cache, keying by the
consensus head hash — refuting "no cache read, no cache write, and no
single-flight slot for such a request". -/
theorem no_min_block_skips_cache_counterexample :
    (proxyDefaultBranch envLeaderOk none ("eth_getTransactionCount") none).key =
      some (77, ("eth_getTransactionCount"), none) ∧
    Ev.cacheRead ∈ (proxyDefaultBranch envLeaderOk none ("eth_getTransactionCount") none).trace ∧
    Ev.insertNotifier ∈
      (proxyDefaultBranch envLeaderOk none ("eth_getTransactionCount") none).trace ∧
    Ev.cacheWrite ∈
      (proxyDefaultBranch envLeaderOk none ("eth_getTransactionCount") none).trace := by
  refine ⟨rfl, ?_, ?_, ?_⟩ <;> decide

/-- C3 (amended): when no minimum block is needed the dispatcher does not
skip the cache; it keys the request by the consensus head block hash and
runs the full cached-dispatch sequence: the cache is read, and on a miss
with a vacant registry the task registers a notifier and, when the dispatch
succeeds, writes the cache. -/
theorem no_min_block_uses_head_hash_cache :
    ∀ (env : DispatchEnv) (m : String) (p : Option String),
      (proxyDefaultBranch env none m p).key = some (env.headBlockHash, m, p) ∧
      Ev.cacheRead ∈ (proxyDefaultBranch env none m p).trace ∧
      (env.cache1 = none → env.registryOccupied = false →
        Ev.insertNotifier ∈ (proxyDefaultBranch env none m p).trace ∧
        ∀ r : Resp, env.dispatchResult = Except.ok r →
          Ev.cacheWrite ∈ (proxyDefaultBranch env none m p).trace) := by
  intro env m p
  unfold proxyDefaultBranch cachedResponse finishDispatch
  rcases h1 : env.cache1 with _ | r <;>
    rcases h2 : env.registryOccupied with _ | _ <;>
    rcases h3 : env.cache2 with _ | c <;>
    rcases h4 : env.dispatchResult with e | r2 <;>
    simp_all

/-- Witness for the amended C3 at a concrete input. -/
theorem no_min_block_uses_head_hash_cache_witness :
    (proxyDefaultBranch envLeaderOk none ("eth_gasPrice") none).key =
      some (envLeaderOk.headBlockHash, ("eth_gasPrice"), none) ∧
    Ev.cacheRead ∈ (proxyDefaultBranch envLeaderOk none ("eth_gasPrice") none).trace ∧
    Ev.insertNotifier ∈ (proxyDefaultBranch envLeaderOk none ("eth_gasPrice") none).trace :=
  ⟨(no_min_block_uses_head_hash_cache envLeaderOk ("eth_gasPrice") none).1,
    (no_min_block_uses_head_hash_cache envLeaderOk ("eth_gasPrice") none).2.1,
    ((no_min_block_uses_head_hash_cache envLeaderOk ("eth_gasPrice") none).2.2 rfl rfl).1⟩

/-- Lowercase hex digits of a natural number (no prefix), as ethers
serializes `U64`/`H256` quantities. -/
def natToHex (n : Nat) : String :=
  String.mk (Nat.toDigits 16 n)

/-- Left-pad a string with zeros to the given length. -/
def padZeros (len : Nat) (s : String) : String :=
  String.mk (List.replicate (len - s.length) '0') ++ s

/-- JSON serialization of a `U64` quantity: `0x`-prefixed hex. -/
def u64Json (n : Nat) : JsonValue :=
  JsonValue.str ("0x" ++ natToHex n)

/-- JSON serialization of `Address::zero()`: 0x followed by 40 hex zeros. -/
def addressZeroStr : String :=
  "0x" ++ String.mk (List.replicate 40 '0')

/-- JSON serialization of an `H256` value: 0x followed by 64 hex digits. -/
def h256Json (h : H256) : JsonValue :=
  JsonValue.str ("0x" ++ padZeros 64 (natToHex h))

/-- The blocked methods of `proxy_web3_rpc_request` (app.rs lines 654-717):
administrative, db, debug-mutation, compilation, signing, mining, les,
personal-key and whisper methods. -/
def blockedMethods : List String :=
  ["admin_addPeer", "admin_datadir", "admin_startRPC", "admin_startWS",
    "admin_stopRPC", "admin_stopWS", "db_getHex", "db_getString", "db_putHex",
    "db_putString", "debug_chaindbCompact", "debug_freezeClient", "debug_goTrace",
    "debug_mutexProfile", "debug_setBlockProfileRate", "debug_setGCPercent",
    "debug_setHead", "debug_setMutexProfileFraction", "debug_standardTraceBlockToFile",
    "debug_standardTraceBadBlockToFile", "debug_startCPUProfile", "debug_startGoTrace",
    "debug_stopCPUProfile", "debug_stopGoTrace", "debug_writeBlockProfile",
    "debug_writeMemProfile", "debug_writeMutexProfile", "eth_compileLLL",
    "eth_compileSerpent", "eth_compileSolidity", "eth_getCompilers",
    "eth_sendTransaction", "eth_sign", "eth_signTransaction", "eth_submitHashrate",
    "eth_submitWork", "les_addBalance", "les_setClientParams", "les_setDefaultParams",
    "miner_setExtra", "miner_setGasPrice", "miner_start", "miner_stop",
    "miner_setEtherbase", "miner_setGasLimit", "personal_importRawKey",
    "personal_listAccounts", "personal_lockAccount", "personal_newAccount",
    "personal_unlockAccount", "personal_sendTransaction", "personal_sign",
    "personal_ecRecover", "shh_addToGroup", "shh_getFilterChanges", "shh_getMessages",
    "shh_hasIdentity", "shh_newFilter", "shh_newGroup", "shh_newIdentity", "shh_post",
    "shh_uninstallFilter", "shh_version"]

/-- The not-yet-implemented filter methods (app.rs lines 722-727). -/
def notYetImplementedMethods : List String :=
  ["eth_getFilterChanges", "eth_getFilterLogs", "eth_newBlockFilter", "eth_newFilter",
    "eth_newPendingTransactionFilter", "eth_uninstallFilter"]

/-- A decoded JSON-RPC request (`JsonRpcRequest`): id, method, params. -/
structure JsonRpcRequest where
  id : Nat
  method : String
  params : Option JsonValue

/-- The application state and external collaborators `proxy_web3_rpc_request`
consults: the consensus head number, the synced-backend count, the Cargo
package metadata baked into `APP_USER_AGENT`, the external keccak256 and
hex-bytes parser from ethers, the `block_needed` helper (block_helpers.rs,
outside this crate slice — it returns the minimum block needed and the
possibly-rewritten params), the cached-dispatch environment, and the
private-pool fan-out outcome. -/
structure AppEnv where
  headBlockNum : Nat
  numSyncedRpcs : Nat
  cargoPkgName : String
  cargoPkgVersion : String
  keccak256 : List Nat → H256
  bytesFromStr : String → Except String (List Nat)
  blockNeeded : String → Option JsonValue → Nat → Option Nat × Option JsonValue
  dispatchEnv : DispatchEnv
  sendAllResult : Except String Resp

/-- `APP_USER_AGENT`: `satoshiandkin/<pkg name>/<pkg version>`. -/
def appUserAgent (env : AppEnv) : String :=
  "satoshiandkin/" ++ env.cargoPkgName ++ "/" ++ env.cargoPkgVersion

/-- Outcome of one request: a locally-built response
(`JsonRpcForwardedResponse::from_value(partial_response, id)`), a response
forwarded from the backends, or an error. -/
inductive ProxyOut
  | ok (id : Nat) (v : JsonValue)
  | forwarded (r : Resp)
  | err (e : String)

/-- `Web3ProxyApp::proxy_web3_rpc_request` (app.rs lines 639-899): the
classification match over the method, returning the response and the trace
of backend-visible events. -/
def proxyWeb3RpcRequest (env : AppEnv) (req : JsonRpcRequest) : ProxyOut × List Ev :=
  if req.method ∈ blockedMethods then (ProxyOut.err ("unsupported"), [])
  else if req.method ∈ notYetImplementedMethods then
    (ProxyOut.err ("not yet implemented"), [])
  else if req.method = "eth_accounts" then (ProxyOut.ok req.id (JsonValue.arr []), [])
  else if req.method = "eth_blockNumber" then
    if env.headBlockNum = 0 then (ProxyOut.err ("no servers synced"), [])
    else (ProxyOut.ok req.id (u64Json env.headBlockNum), [])
  else if req.method = "eth_coinbase" then
    (ProxyOut.ok req.id (JsonValue.str addressZeroStr), [])
  else if req.method = "eth_hashrate" then (ProxyOut.ok req.id (u64Json 0), [])
  else if req.method = "eth_mining" then (ProxyOut.ok req.id (JsonValue.bool false), [])
  else if req.method = "eth_sendRawTransaction" then
    match env.sendAllResult with
    | Except.ok r => (ProxyOut.forwarded r, [Ev.dispatchUpstream])
    | Except.error e => (ProxyOut.err e, [Ev.dispatchUpstream])
  else if req.method = "eth_syncing" then (ProxyOut.ok req.id (JsonValue.bool false), [])
  else if req.method = "net_listening" then (ProxyOut.ok req.id (JsonValue.bool true), [])
  else if req.method = "net_peerCount" then
    (ProxyOut.ok req.id (JsonValue.num env.numSyncedRpcs), [])
  else if req.method = "web3_clientVersion" then
    (ProxyOut.ok req.id (JsonValue.str (appUserAgent env)), [])
  else if req.method = "web3_sha3" then
    match req.params with
    | some (JsonValue.arr ps) =>
      match ps with
      | [JsonValue.str s] =>
        match env.bytesFromStr s with
        | Except.error e => (ProxyOut.err e, [])
        | Except.ok bytes => (ProxyOut.ok req.id (h256Json (env.keccak256 bytes)), [])
      | _ => (ProxyOut.err ("invalid request"), [])
    | _ => (ProxyOut.err ("invalid request"), [])
  else
    let bn := env.blockNeeded req.method req.params env.headBlockNum
    let out := proxyDefaultBranch env.dispatchEnv bn.1 req.method
      (bn.2.map JsonValue.serialize)
    match out.result with
    | Except.ok r => (ProxyOut.forwarded r, out.trace)
    | Except.error e => (ProxyOut.err e, out.trace)

/-- `FrontendErrorResponse` (frontend/errors.rs), restricted to the variants
this development reasons about. -/
inductive FrontendErrorResponse
  | anyhowErr (msg : String)
  | notFoundErr
  | rateLimitedIp (ip : String)
  | unknownKey

/-- `JsonRpcErrorData`: the `error` object of a JSON-RPC error response. -/
structure JsonRpcErrorData where
  message : String
  code : Int
  data : Option JsonValue

/-- `FrontendErrorResponse::into_response` (frontend/errors.rs lines 44-217):
HTTP status plus JSON-RPC error body. The anyhow arm — the one every
`anyhow::anyhow!` error from the router reaches — uses
`StatusCode::INTERNAL_SERVER_ERROR` (500) as both status and error code. -/
def frontendErrorIntoResponse : FrontendErrorResponse → Nat × JsonRpcErrorData
  | FrontendErrorResponse.anyhowErr msg => (500, ⟨msg, 500, none⟩)
  | FrontendErrorResponse.notFoundErr => (404, ⟨"not found!", 404, none⟩)
  | FrontendErrorResponse.rateLimitedIp ip =>
    (429, ⟨"too many requests from ip " ++ ip ++ "!", 429, none⟩)
  | FrontendErrorResponse.unknownKey => (401, ⟨"unknown api key!", 401, none⟩)

/-- A concrete application environment used by witnesses. -/
def appEnv0 : AppEnv where
  headBlockNum := 100
  numSyncedRpcs := 3
  cargoPkgName := "web3-proxy"
  cargoPkgVersion := "0.1.0"
  keccak256 := fun bytes => bytes.foldl (fun a b => a * 256 + b) 0
  bytesFromStr := fun _ => Except.ok [1, 2]
  blockNeeded := fun _ p _ => (none, p)
  dispatchEnv := envLeaderOk
  sendAllResult := Except.ok ("0xhash")

/-- C4 counterexample: `personal_sign` is answered through the anyhow error
path, whose JSON-RPC error code is 500 (`INTERNAL_SERVER_ERROR`), not the
claimed -32601; the message is "unsupported". -/
theorem blocked_method_error_code_counterexample :
    (proxyWeb3RpcRequest appEnv0 ⟨7, ("personal_sign"), none⟩).1 =
      ProxyOut.err ("unsupported") ∧
    (frontendErrorIntoResponse (FrontendErrorResponse.anyhowErr ("unsupported"))).2.code =
      500 ∧
    (frontendErrorIntoResponse (FrontendErrorResponse.anyhowErr ("unsupported"))).2.code ≠
      -32601 := by
  refine ⟨?_, rfl, by decide⟩
  simp [proxyWeb3RpcRequest, blockedMethods]

/-- C4 (amended): every blocked method is rejected without any backend
dispatch; the error surfaces through the anyhow arm of
`FrontendErrorResponse::into_response` as a JSON-RPC error with code 500
(`INTERNAL_SERVER_ERROR` reused as the error code) and message
"unsupported". -/
theorem blocked_methods_rejected_unsupported :
    ∀ (env : AppEnv) (req : JsonRpcRequest),
      req.method ∈ blockedMethods →
      proxyWeb3RpcRequest env req = (ProxyOut.err ("unsupported"), []) ∧
      frontendErrorIntoResponse (FrontendErrorResponse.anyhowErr ("unsupported")) =
        (500, ⟨"unsupported", 500, none⟩) := by
  intro env req h
  refine ⟨?_, rfl⟩
  simp [proxyWeb3RpcRequest, h]

/-- Witness for the amended C4 at a concrete blocked method. -/
theorem blocked_methods_rejected_unsupported_witness :
    proxyWeb3RpcRequest appEnv0 ⟨9, ("eth_sign"), none⟩ =
      (ProxyOut.err ("unsupported"), []) :=
  (blocked_methods_rejected_unsupported appEnv0 ⟨9, ("eth_sign"), none⟩ (by decide)).1

/-- C5: the locally answered methods never reach a backend (empty event
trace) and return the fixed values from app.rs lines 728-792: empty
accounts, the zero coinbase address, hashrate 0x0, mining and syncing
false, listening true, the synced-backend count as peer count, the
user-agent string, keccak256 of the given data for web3_sha3, and the
consensus head number for eth_blockNumber, which errors exactly when that
number is 0. -/
theorem local_methods_answered_without_backend :
    ∀ (env : AppEnv) (req : JsonRpcRequest),
      (req.method = "eth_accounts" →
        proxyWeb3RpcRequest env req = (ProxyOut.ok req.id (JsonValue.arr []), [])) ∧
      (req.method = "eth_coinbase" →
        proxyWeb3RpcRequest env req = (ProxyOut.ok req.id (JsonValue.str addressZeroStr), [])) ∧
      (req.method = "eth_hashrate" →
        proxyWeb3RpcRequest env req = (ProxyOut.ok req.id (JsonValue.str ("0x0")), [])) ∧
      (req.method = "eth_mining" →
        proxyWeb3RpcRequest env req = (ProxyOut.ok req.id (JsonValue.bool false), [])) ∧
      (req.method = "eth_syncing" →
        proxyWeb3RpcRequest env req = (ProxyOut.ok req.id (JsonValue.bool false), [])) ∧
      (req.method = "net_listening" →
        proxyWeb3RpcRequest env req = (ProxyOut.ok req.id (JsonValue.bool true), [])) ∧
      (req.method = "net_peerCount" →
        proxyWeb3RpcRequest env req =
          (ProxyOut.ok req.id (JsonValue.num env.numSyncedRpcs), [])) ∧
      (req.method = "web3_clientVersion" →
        proxyWeb3RpcRequest env req =
          (ProxyOut.ok req.id (JsonValue.str (appUserAgent env)), [])) ∧
      (req.method = "eth_blockNumber" → env.headBlockNum ≠ 0 →
        proxyWeb3RpcRequest env req =
          (ProxyOut.ok req.id (u64Json env.headBlockNum), [])) ∧
      (req.method = "eth_blockNumber" → env.headBlockNum = 0 →
        proxyWeb3RpcRequest env req = (ProxyOut.err ("no servers synced"), [])) ∧
      (∀ (s : String) (bytes : List Nat), req.method = "web3_sha3" →
        req.params = some (JsonValue.arr [JsonValue.str s]) →
        env.bytesFromStr s = Except.ok bytes →
        proxyWeb3RpcRequest env req =
          (ProxyOut.ok req.id (h256Json (env.keccak256 bytes)), [])) := by
  intro env req
  refine ⟨?_, ?_, ?_, ?_, ?_, ?_, ?_, ?_, ?_, ?_, ?_⟩
  · intro h
    simp [proxyWeb3RpcRequest, h, blockedMethods, notYetImplementedMethods]
  · intro h
    simp [proxyWeb3RpcRequest, h, blockedMethods, notYetImplementedMethods]
  · intro h
    simp [proxyWeb3RpcRequest, h, blockedMethods, notYetImplementedMethods, u64Json, natToHex]
    rfl
  · intro h
    simp [proxyWeb3RpcRequest, h, blockedMethods, notYetImplementedMethods]
  · intro h
    simp [proxyWeb3RpcRequest, h, blockedMethods, notYetImplementedMethods]
  · intro h
    simp [proxyWeb3RpcRequest, h, blockedMethods, notYetImplementedMethods]
  · intro h
    simp [proxyWeb3RpcRequest, h, blockedMethods, notYetImplementedMethods]
  · intro h
    simp [proxyWeb3RpcRequest, h, blockedMethods, notYetImplementedMethods]
  · intro h hne
    simp [proxyWeb3RpcRequest, h, blockedMethods, notYetImplementedMethods, hne]
  · intro h hz
    simp [proxyWeb3RpcRequest, h, blockedMethods, notYetImplementedMethods, hz]
  · intro s bytes h hp hb
    simp [proxyWeb3RpcRequest, h, hp, hb, blockedMethods, notYetImplementedMethods]

/-- Witness for C5 at concrete inputs. -/
theorem local_methods_answered_without_backend_witness :
    proxyWeb3RpcRequest appEnv0 ⟨1, ("eth_accounts"), none⟩ =
      (ProxyOut.ok 1 (JsonValue.arr []), []) ∧
    proxyWeb3RpcRequest appEnv0 ⟨2, ("eth_blockNumber"), none⟩ =
      (ProxyOut.ok 2 (u64Json 100), []) ∧
    proxyWeb3RpcRequest appEnv0
        ⟨3, ("web3_sha3"), some (JsonValue.arr [JsonValue.str ("0x0102")])⟩ =
      (ProxyOut.ok 3 (h256Json 258), []) :=
  ⟨(local_methods_answered_without_backend appEnv0 ⟨1, ("eth_accounts"), none⟩).1 rfl,
    (local_methods_answered_without_backend appEnv0
      ⟨2, ("eth_blockNumber"), none⟩).2.2.2.2.2.2.2.2.1 rfl (by decide),
    (local_methods_answered_without_backend appEnv0
      ⟨3, ("web3_sha3"), some (JsonValue.arr [JsonValue.str ("0x0102")])⟩).2.2.2.2.2.2.2.2.2.2
      ("0x0102") [1, 2] rfl rfl rfl⟩

/-- The per-backend counters of `Web3Connection` touched by the handle
lifecycle (rpcs/request.rs). -/
structure Web3ConnectionCounters where
  active_requests : Nat
  total_requests : Nat

/-- `OpenRequestHandle::new` (rpcs/request.rs lines 107-133):
`active_requests.fetch_add(1)` and `total_requests.fetch_add(1)`. -/
def openRequestHandleNew (conn : Web3ConnectionCounters) : Web3ConnectionCounters :=
  { conn with
    active_requests := conn.active_requests + 1
    total_requests := conn.total_requests + 1 }

/-- `impl Drop for OpenRequestHandle` (rpcs/request.rs lines 273-279):
`active_requests.fetch_sub(1)`, run unconditionally when the handle drops. -/
def openRequestHandleDrop (conn : Web3ConnectionCounters) : Web3ConnectionCounters :=
  { conn with active_requests := conn.active_requests - 1 }

/-- One backend-visible step of the handle lifecycle. -/
inductive HandleEv
  | acquire
  | release

/-- Apply one lifecycle step to the counters. -/
def applyHandleEv (conn : Web3ConnectionCounters) : HandleEv → Web3ConnectionCounters
  | HandleEv.acquire => openRequestHandleNew conn
  | HandleEv.release => openRequestHandleDrop conn

/-- Run a lifecycle trace, oldest event first. -/
def runHandleTrace (t : List HandleEv) (conn : Web3ConnectionCounters) :
    Web3ConnectionCounters :=
  t.foldl applyHandleEv conn

/-- Number of handle acquisitions in a trace. -/
def countAcquires (t : List HandleEv) : Nat :=
  (t.filter (fun e => match e with | HandleEv.acquire => true | _ => false)).length

/-- Number of handle releases in a trace. -/
def countReleases (t : List HandleEv) : Nat :=
  (t.filter (fun e => match e with | HandleEv.release => true | _ => false)).length

/-- A trace is handle-valid when every release matches an earlier
acquisition: with `outstanding` handles currently issued, no release occurs
while none is outstanding. Rust guarantees this shape — each
`OpenRequestHandle` drops exactly once, after its `new`. -/
def validHandleTrace : List HandleEv → Nat → Bool
  | [], _ => true
  | HandleEv.acquire :: t, outstanding => validHandleTrace t (outstanding + 1)
  | HandleEv.release :: t, outstanding =>
    decide (0 < outstanding) && validHandleTrace t (outstanding - 1)

lemma runHandleTrace_active (t : List HandleEv) :
    ∀ (conn : Web3ConnectionCounters) (k : Nat), conn.active_requests = k →
      validHandleTrace t k = true →
      (runHandleTrace t conn).active_requests = k + countAcquires t - countReleases t ∧
      countReleases t ≤ k + countAcquires t := by
  induction t with
  | nil =>
    intro conn k hk _
    simp [runHandleTrace, countAcquires, countReleases, hk]
  | cons e rest ih =>
    intro conn k hk hv
    cases e with
    | acquire =>
      have hv2 : validHandleTrace rest (k + 1) = true := by
        simpa [validHandleTrace] using hv
      have := ih (openRequestHandleNew conn) (k + 1)
        (by simp [openRequestHandleNew, hk]) hv2
      have hc : countAcquires (HandleEv.acquire :: rest) = countAcquires rest + 1 := by
        simp [countAcquires, List.filter_cons]
      have hr : countReleases (HandleEv.acquire :: rest) = countReleases rest := by
        simp [countReleases, List.filter_cons]
      constructor
      · have h1 := this.1
        have h2 := this.2
        simp only [runHandleTrace, List.foldl_cons, applyHandleEv] at h1 h2 ⊢
        rw [hc, hr]
        omega
      · rw [hc, hr]
        have := this.2
        omega
    | release =>
      have hpos : 0 < k := by
        by_contra hneg
        simp [validHandleTrace, Nat.not_lt.mp hneg] at hv
        omega
      have hv2 : validHandleTrace rest (k - 1) = true := by
        simp [validHandleTrace] at hv
        exact hv.2
      have := ih (openRequestHandleDrop conn) (k - 1)
        (by simp [openRequestHandleDrop, hk]) hv2
      have hc : countAcquires (HandleEv.release :: rest) = countAcquires rest := by
        simp [countAcquires, List.filter_cons]
      have hr : countReleases (HandleEv.release :: rest) = countReleases rest + 1 := by
        simp [countReleases, List.filter_cons]
      constructor
      · have h1 := this.1
        have h2 := this.2
        simp only [runHandleTrace, List.foldl_cons, applyHandleEv] at h1 h2 ⊢
        rw [hc, hr]
        omega
      · rw [hc, hr]
        have := this.2
        omega

/-- C6: acquiring a handle increments `active_requests` by one and also
counts on `total_requests`; dropping a handle decrements `active_requests`
by one; and over any handle-valid trace starting at zero, `active_requests`
equals the number of handles issued but not yet released, and is zero once
every issued handle has been released. -/
theorem handle_conservation :
    (∀ conn : Web3ConnectionCounters,
      (openRequestHandleNew conn).active_requests = conn.active_requests + 1 ∧
      (openRequestHandleNew conn).total_requests = conn.total_requests + 1) ∧
    (∀ conn : Web3ConnectionCounters, 0 < conn.active_requests →
      (openRequestHandleDrop conn).active_requests = conn.active_requests - 1) ∧
    (∀ (t : List HandleEv) (conn : Web3ConnectionCounters),
      conn.active_requests = 0 → validHandleTrace t 0 = true →
      (runHandleTrace t conn).active_requests = countAcquires t - countReleases t ∧
      (countAcquires t = countReleases t →
        (runHandleTrace t conn).active_requests = 0)) := by
  refine ⟨fun conn => ⟨rfl, rfl⟩, fun conn _ => rfl, ?_⟩
  intro t conn h0 hv
  have := runHandleTrace_active t conn 0 h0 hv
  constructor
  · simpa using this.1
  · intro heq
    have h1 := this.1
    omega

/-- Witness for C6 at a concrete trace: acquire, acquire, release, release
leaves `active_requests` at zero. -/
theorem handle_conservation_witness :
    (runHandleTrace [HandleEv.acquire, HandleEv.acquire, HandleEv.release,
      HandleEv.release] ⟨0, 0⟩).active_requests = 0 :=
  (handle_conservation.2.2 [HandleEv.acquire, HandleEv.acquire, HandleEv.release,
    HandleEv.release] ⟨0, 0⟩ rfl (by decide)).2 (by decide)

/-- Outcome of `OpenRequestHandle::request`'s entry guard
(rpcs/request.rs lines 155-159): `self.used.swap(true)` — if the handle was
already used the code reaches `unimplemented!` (a panic). -/
inductive ReqStep
  | panicked
  | proceeded (used : Bool)

/-- The single-use guard: swap `used` to true and panic if it already was. -/
def handleRequestGuard (used : Bool) : ReqStep :=
  if used then ReqStep.panicked else ReqStep.proceeded true

/-- Whether running `n` successive `request` calls on a handle whose `used`
flag starts as given reaches the panic. -/
def runNRequests : Nat → Bool → Bool
  | 0, _ => false
  | Nat.succ n, used =>
    match handleRequestGuard used with
    | ReqStep.panicked => true
    | ReqStep.proceeded u => runNRequests n u

/-- C9: the first `request` call on a fresh handle proceeds and marks it
used, a call on a used handle panics, any second call therefore panics, and
under the at-most-one-call precondition the panic branch is unreachable. -/
theorem open_request_handle_single_use :
    handleRequestGuard false = ReqStep.proceeded true ∧
    handleRequestGuard true = ReqStep.panicked ∧
    (∀ n : Nat, n ≤ 1 → runNRequests n false = false) ∧
    (∀ n : Nat, 2 ≤ n → runNRequests n false = true) := by
  refine ⟨rfl, rfl, ?_, ?_⟩
  · intro n hn
    interval_cases n <;> rfl
  · intro n hn
    rcases n with _ | _ | m
    · omega
    · omega
    · rfl

/-- Witness for C9 at concrete call counts: one call does not panic, two
calls do. -/
theorem open_request_handle_single_use_witness :
    runNRequests 1 false = false ∧ runNRequests 2 false = true :=
  ⟨open_request_handle_single_use.2.2.1 1 (by decide),
    open_request_handle_single_use.2.2.2 2 (by decide)⟩

/-- `RequestErrorHandler` (rpcs/request.rs lines 44-53). The percent chance
in `SaveReverts` is an `f32` in source; the values used are exact decimal
probabilities, modelled as rationals. -/
inductive RequestErrorHandler
  | saveReverts (saveChance : ℚ)
  | debugLevel
  | errorLevel
  | warnLevel

/-- `AuthorizedRequest`, as used in rpcs/request.rs: either an internal
request or a user request, each optionally carrying a database connection;
user requests carry the `user_key_id` written to revert logs. -/
inductive AuthorizedRequest
  | internal (dbConn : Bool)
  | user (dbConn : Bool) (userKeyId : Nat)

/-- `authorization.db_conn().is_some()`. -/
def AuthorizedRequest.dbConnSome : AuthorizedRequest → Bool
  | AuthorizedRequest.internal b => b
  | AuthorizedRequest.user b _ => b

/-- `EthCallParams` (rpcs/request.rs lines 55-62). The `to` field is named
`toAddr` here because `to` is reserved in Lean. -/
structure EthCallParams where
  method : String
  toAddr : List Nat
  data : String
  deriving DecidableEq

/-- The `revert_logs` row written by `AuthorizedRequest::save_revert`
(rpcs/request.rs lines 77-102): user key, method, to-address and call data.
It contains no revert-message column. -/
structure RevertLogRecord where
  user_key_id : Nat
  method : String
  toAddr : List Nat
  call_data : String
  deriving DecidableEq

/-- `AuthorizedRequest::save_revert`: writes a row only for
`Self::User(Some(db_conn), _)`; internal requests and users without a
database write nothing. -/
def saveRevert (auth : AuthorizedRequest) (params : EthCallParams) :
    Option RevertLogRecord :=
  match auth with
  | AuthorizedRequest.user true kid =>
    some ⟨kid, params.method, params.toAddr, params.data⟩
  | _ => none

/-- `msg.starts_with("execution reverted")`: prefix test on the
characters. -/
def strStartsWith (s pre : String) : Bool :=
  pre.data.isPrefixOf s.data

/-- What a failed provider response is, after the downcasts of
rpcs/request.rs lines 223-243: a `JsonRpcClientError` whose inner error is
a JSON-RPC error with a message, a `JsonRpcClientError` whose inner error
is not, or some other `ProviderError`. -/
inductive ProviderErrorKind
  | jsonRpcClientError (msg : Option String)
  | otherError

/-- The data of one failed request as seen by the error-handling tail of
`OpenRequestHandle::request`: the method, authorization, the sampled
`gen_range(0.0..=1.0)` value, the error shape, and the decoded call
params. -/
structure FailedRequest where
  method : String
  authorization : AuthorizedRequest
  draw : ℚ
  err : ProviderErrorKind
  params : EthCallParams

/-- The handler downgrade of rpcs/request.rs lines 193-208: `SaveReverts`
stays only for `eth_call`/`eth_estimateGas` with a database configured, a
nonzero chance, and a winning draw (`save_chance == 1.0` short-circuits the
sample); every other case downgrades to `DebugLevel`. -/
def effectiveErrorHandler (eh : RequestErrorHandler) (ctx : FailedRequest) :
    RequestErrorHandler :=
  match eh with
  | RequestErrorHandler.saveReverts saveChance =>
    if (ctx.method = "eth_call" ∨ ctx.method = "eth_estimateGas")
        ∧ ctx.authorization.dbConnSome = true
        ∧ saveChance ≠ 0
        ∧ (saveChance = 1 ∨ ctx.draw ≤ saveChance)
    then RequestErrorHandler.saveReverts saveChance
    else RequestErrorHandler.debugLevel
  | other => other

/-- The observable outcome of handling one failed request. -/
inductive ErrorAction
  | logDebug
  | logError
  | logWarn
  | spawnSaveRevert (record : Option RevertLogRecord)
  | noAction
  deriving DecidableEq

/-- The error-handling match of rpcs/request.rs lines 210-261: log at the
chosen level, or, under a surviving `SaveReverts`, spawn `save_revert` when
the error is a JSON-RPC error whose message starts with
"execution reverted", log at debug for other JSON-RPC errors, and do
nothing at all for errors that carry no JSON-RPC message. -/
def requestErrorAction (eh : RequestErrorHandler) (ctx : FailedRequest) : ErrorAction :=
  match effectiveErrorHandler eh ctx with
  | RequestErrorHandler.debugLevel => ErrorAction.logDebug
  | RequestErrorHandler.errorLevel => ErrorAction.logError
  | RequestErrorHandler.warnLevel => ErrorAction.logWarn
  | RequestErrorHandler.saveReverts _ =>
    match ctx.err with
    | ProviderErrorKind.jsonRpcClientError (some msg) =>
      if strStartsWith msg ("execution reverted")
      then ErrorAction.spawnSaveRevert (saveRevert ctx.authorization ctx.params)
      else ErrorAction.logDebug
    | ProviderErrorKind.jsonRpcClientError none => ErrorAction.noAction
    | ProviderErrorKind.otherError => ErrorAction.noAction

/-- The concrete failed request used by the C7 counterexample: an
`eth_call` by a user with a database, a surely-winning draw, and a
provider error that is not a JSON-RPC client error. -/
def failedCallTransport : FailedRequest :=
  ⟨"eth_call", AuthorizedRequest.user true 5, 0, ProviderErrorKind.otherError,
    ⟨"eth_call", [1], "0x01"⟩⟩

/-- The concrete failed request used by the C7 witness: the same call
failing with an execution-revert JSON-RPC error. -/
def failedCallRevert : FailedRequest :=
  ⟨"eth_call", AuthorizedRequest.user true 5, 0,
    ProviderErrorKind.jsonRpcClientError (some ("execution reverted: nope")),
    ⟨"eth_call", [1], "0x01"⟩⟩

/-- C7 counterexample: an `eth_call` failure under `SaveReverts(1)` with a
database configured — the claim says the parameters and revert message are
then surely submitted — produces NO submission and no debug log when the
provider error is not a JSON-RPC client error. -/
theorem save_reverts_policy_counterexample :
    requestErrorAction (RequestErrorHandler.saveReverts 1) failedCallTransport =
      ErrorAction.noAction ∧
    ErrorAction.noAction ≠ ErrorAction.logDebug := by
  refine ⟨?_, by decide⟩
  decide

/-- C7 (amended): `SaveReverts(p)` stays active only for `eth_call` and
`eth_estimateGas`; other methods, a zero chance, a losing draw, or a
missing database all downgrade to a debug-level log with no submission.
When it stays active, `save_revert` is spawned exactly for JSON-RPC client
errors whose message starts with "execution reverted"; the persisted record
holds the user key and the call parameters (method, to, call data) — not
the revert message — and is written only for user-authorized requests with
a database. JSON-RPC errors with other messages are logged at debug, and
errors carrying no JSON-RPC message produce neither a log nor a
submission. -/
theorem save_reverts_policy :
    ∀ (p : ℚ) (ctx : FailedRequest),
      (¬ (ctx.method = "eth_call" ∨ ctx.method = "eth_estimateGas") →
        requestErrorAction (RequestErrorHandler.saveReverts p) ctx = ErrorAction.logDebug) ∧
      (p = 0 →
        requestErrorAction (RequestErrorHandler.saveReverts p) ctx = ErrorAction.logDebug) ∧
      (p ≠ 1 → ¬ ctx.draw ≤ p →
        requestErrorAction (RequestErrorHandler.saveReverts p) ctx = ErrorAction.logDebug) ∧
      (ctx.authorization.dbConnSome = false →
        requestErrorAction (RequestErrorHandler.saveReverts p) ctx = ErrorAction.logDebug) ∧
      (∀ msg : String,
        (ctx.method = "eth_call" ∨ ctx.method = "eth_estimateGas") →
        ctx.authorization.dbConnSome = true → p ≠ 0 → (p = 1 ∨ ctx.draw ≤ p) →
        ctx.err = ProviderErrorKind.jsonRpcClientError (some msg) →
        strStartsWith msg ("execution reverted") = true →
        requestErrorAction (RequestErrorHandler.saveReverts p) ctx =
          ErrorAction.spawnSaveRevert (saveRevert ctx.authorization ctx.params)) ∧
      (∀ msg : String,
        ctx.err = ProviderErrorKind.jsonRpcClientError (some msg) →
        strStartsWith msg ("execution reverted") = false →
        requestErrorAction (RequestErrorHandler.saveReverts p) ctx = ErrorAction.logDebug) ∧
      (ctx.err = ProviderErrorKind.otherError →
        (ctx.method = "eth_call" ∨ ctx.method = "eth_estimateGas") →
        ctx.authorization.dbConnSome = true → p ≠ 0 → (p = 1 ∨ ctx.draw ≤ p) →
        requestErrorAction (RequestErrorHandler.saveReverts p) ctx = ErrorAction.noAction) ∧
      (∀ (kid : Nat) (params : EthCallParams),
        saveRevert (AuthorizedRequest.user true kid) params =
          some ⟨kid, params.method, params.toAddr, params.data⟩) := by
  intro p ctx
  refine ⟨?_, ?_, ?_, ?_, ?_, ?_, ?_, fun kid params => rfl⟩
  · intro h
    simp only [requestErrorAction, effectiveErrorHandler]
    rw [if_neg (fun hcon => h hcon.1)]
  · intro h
    simp only [requestErrorAction, effectiveErrorHandler]
    rw [if_neg (fun hcon => hcon.2.2.1 h)]
  · intro h1 h2
    simp only [requestErrorAction, effectiveErrorHandler]
    rw [if_neg (fun hcon => hcon.2.2.2.elim h1 h2)]
  · intro h
    simp only [requestErrorAction, effectiveErrorHandler]
    rw [if_neg (fun hcon => by rw [h] at hcon; exact Bool.false_ne_true hcon.2.1)]
  · intro msg hm hdb hp0 hp1 herr hstart
    simp only [requestErrorAction, effectiveErrorHandler]
    rw [if_pos ⟨hm, hdb, hp0, hp1⟩]
    simp only [herr, hstart, if_true]
  · intro msg herr hstart
    simp only [requestErrorAction, effectiveErrorHandler]
    by_cases hcon : (ctx.method = "eth_call" ∨ ctx.method = "eth_estimateGas")
        ∧ ctx.authorization.dbConnSome = true ∧ p ≠ 0 ∧ (p = 1 ∨ ctx.draw ≤ p)
    · rw [if_pos hcon]
      simp [herr, hstart]
    · rw [if_neg hcon]
  · intro herr hm hdb hp0 hp1
    simp only [requestErrorAction, effectiveErrorHandler]
    rw [if_pos ⟨hm, hdb, hp0, hp1⟩]
    simp only [herr]

/-- Witness for the amended C7: a user `eth_call` revert under
`SaveReverts(1)` with a database spawns a save of exactly the call
parameters. -/
theorem save_reverts_policy_witness :
    requestErrorAction (RequestErrorHandler.saveReverts 1) failedCallRevert =
      ErrorAction.spawnSaveRevert (some ⟨5, "eth_call", [1], "0x01"⟩) :=
  (save_reverts_policy 1 failedCallRevert).2.2.2.2.1
    ("execution reverted: nope") (Or.inl rfl) rfl (by norm_num) (Or.inl rfl) rfl (by decide)

/-- The `Authorization` data consulted by the RateLimited arm of
`Web3ProxyError::as_response_parts` (errors.rs): the client ip and the
optional rpc key id from the authorization checks. -/
structure Authorization where
  ip : String
  rpcSecretKeyId : Option Nat

/-- The `Self::RateLimited(authorization, retry_at)` arm of
`Web3ProxyError::as_response_parts` (errors.rs lines 799-830). Instants are
whole seconds; `Instant::duration_since` saturates at zero, matching `Nat`
subtraction. The status and the JSON-RPC error code are both
`StatusCode::TOO_MANY_REQUESTS` (429); `data` is `None` and the retry hint
is embedded in the message text. -/
def rateLimitedResponseParts (authorization : Authorization) (retryAt : Option Nat)
    (now : Nat) : Nat × JsonRpcErrorData :=
  let retryMsg :=
    match retryAt with
    | some retry_at => " Retry in " ++ toString (retry_at - now) ++ " seconds"
    | none => ""
  let msg :=
    match authorization.rpcSecretKeyId with
    | none => ("too many requests from " ++ authorization.ip ++ ".") ++ retryMsg
    | some kid => ("too many requests from rpc key #" ++ toString kid ++ ".") ++ retryMsg
  (429, ⟨msg, 429, none⟩)

/-- C8 counterexample: a rate-limited request is answered with JSON-RPC
error code 429, not the claimed -32005, and its `data` field is absent even
when a retry time is known. -/
theorem rate_limited_error_code_counterexample :
    (rateLimitedResponseParts ⟨"1.2.3.4", none⟩ (some 10) 0).2.code = 429 ∧
    ((429 : Int) ≠ -32005) ∧
    (rateLimitedResponseParts ⟨"1.2.3.4", none⟩ (some 10) 0).2.data = none :=
  ⟨rfl, by decide, rfl⟩

/-- C8 (amended): every rate-limited request is answered with HTTP status
429 and a JSON-RPC error whose code is 429 (`TOO_MANY_REQUESTS` reused as
the error code) and whose `data` field is `None`; when a retry time is
known the retry-after hint appears in the message text. -/
theorem rate_limited_responses :
    ∀ (authorization : Authorization) (retryAt : Option Nat) (now : Nat),
      (rateLimitedResponseParts authorization retryAt now).1 = 429 ∧
      (rateLimitedResponseParts authorization retryAt now).2.code = 429 ∧
      (rateLimitedResponseParts authorization retryAt now).2.data = none ∧
      (∀ t : Nat, retryAt = some t →
        ∃ s : String, (rateLimitedResponseParts authorization retryAt now).2.message =
          s ++ (" Retry in " ++ toString (t - now) ++ " seconds")) := by
  intro authorization retryAt now
  refine ⟨rfl, rfl, rfl, ?_⟩
  intro t ht
  subst ht
  unfold rateLimitedResponseParts
  rcases authorization.rpcSecretKeyId with _ | kid
  · exact ⟨("too many requests from " ++ authorization.ip ++ "."), rfl⟩
  · exact ⟨("too many requests from rpc key #" ++ toString kid ++ "."), rfl⟩

/-- Witness for the amended C8 at a concrete input. -/
theorem rate_limited_responses_witness :
    (rateLimitedResponseParts ⟨"8.8.8.8", some 3⟩ (some 42) 2).1 = 429 ∧
    (rateLimitedResponseParts ⟨"8.8.8.8", some 3⟩ (some 42) 2).2.data = none ∧
    ∃ s : String, (rateLimitedResponseParts ⟨"8.8.8.8", some 3⟩ (some 42) 2).2.message =
      s ++ (" Retry in " ++ toString (42 - 2) ++ " seconds") :=
  ⟨(rate_limited_responses ⟨"8.8.8.8", some 3⟩ (some 42) 2).1,
    (rate_limited_responses ⟨"8.8.8.8", some 3⟩ (some 42) 2).2.2.1,
    (rate_limited_responses ⟨"8.8.8.8", some 3⟩ (some 42) 2).2.2.2 42 rfl⟩

/-- The compute-unit table of `ComputeUnit::new` (compute_units.rs lines
23-111): chain-specific entries for Polygon zkEVM (1101) and Polygon (137),
then the chain-independent entries. Methods absent from the table (and
`eth_pollSubscriptions`, whose arm returns `Self::unimplemented()`) map to
`none`, which `ComputeUnit::new` prices as unimplemented. -/
def cuTable (chain_id : Nat) (method : String) : Option Nat :=
  match chain_id, method with
  | 1101, "zkevm_batchNumber" => some 0
  | 1101, "zkevm_batchNumberByBlockNumber" => some 0
  | 1101, "zkevm_consolidatedBlockNumber" => some 0
  | 1101, "zkevm_getBatchByNumber" => some 0
  | 1101, "zkevm_getBroadcastURI" => some 0
  | 1101, "zkevm_isBlockConsolidated" => some 0
  | 1101, "zkevm_isBlockVirtualized" => some 0
  | 1101, "zkevm_verifiedBatchNumber" => some 0
  | 1101, "zkevm_virtualBatchNumber" => some 0
  | 137, "bor_getAuthor" => some 10
  | 137, "bor_getCurrentProposer" => some 10
  | 137, "bor_getCurrentValidators" => some 10
  | 137, "bor_getRootHash" => some 10
  | 137, "bor_getSignersAtHash" => some 10
  | _, "debug_traceBlockByHash" => some 497
  | _, "debug_traceBlockByNumber" => some 497
  | _, "debug_traceCall" => some 309
  | _, "debug_traceTransaction" => some 309
  | _, "erigon_forks" => some 24
  | _, "erigon_getHeaderByHash" => some 24
  | _, "erigon_getHeaderByNumber" => some 24
  | _, "erigon_getLogsByHash" => some 24
  | _, "erigon_issuance" => some 24
  | _, "eth_accounts" => some 10
  | _, "eth_blockNumber" => some 10
  | _, "eth_call" => some 26
  | _, "eth_chainId" => some 0
  | _, "eth_createAccessList" => some 10
  | _, "eth_estimateGas" => some 87
  | _, "eth_estimateUserOperationGas" => some 500
  | _, "eth_feeHistory" => some 10
  | _, "eth_gasPrice" => some 19
  | _, "eth_getBalance" => some 19
  | _, "eth_getBlockByHash" => some 21
  | _, "eth_getBlockByNumber" => some 16
  | _, "eth_getBlockReceipts" => some 500
  | _, "eth_getBlockTransactionCountByHash" => some 20
  | _, "eth_getBlockTransactionCountByNumber" => some 20
  | _, "eth_getCode" => some 19
  | _, "eth_getFilterChanges" => some 20
  | _, "eth_getFilterLogs" => some 75
  | _, "eth_getLogs" => some 75
  | _, "eth_getProof" => some 21
  | _, "eth_getStorageAt" => some 17
  | _, "eth_getTransactionByBlockHashAndIndex" => some 15
  | _, "eth_getTransactionByBlockNumberAndIndex" => some 15
  | _, "eth_getTransactionByHash" => some 17
  | _, "eth_getTransactionCount" => some 26
  | _, "eth_getTransactionReceipt" => some 15
  | _, "eth_getUncleByBlockHashAndIndex" => some 15
  | _, "eth_getUncleByBlockNumberAndIndex" => some 15
  | _, "eth_getUncleCountByBlockHash" => some 15
  | _, "eth_getUncleCountByBlockNumber" => some 15
  | _, "eth_getUserOperationByHash" => some 17
  | _, "eth_getUserOperationReceipt" => some 15
  | _, "eth_maxPriorityFeePerGas" => some 10
  | _, "eth_newBlockFilter" => some 20
  | _, "eth_newFilter" => some 20
  | _, "eth_newPendingTransactionFilter" => some 20
  | _, "eth_protocolVersion" => some 0
  | _, "eth_sendRawTransaction" => some 250
  | _, "eth_sendUserOperation" => some 1000
  | _, "eth_subscribe" => some 10
  | _, "eth_supportedEntryPoints" => some 5
  | _, "eth_syncing" => some 0
  | _, "eth_uninstallFilter" => some 10
  | _, "eth_unsubscribe" => some 10
  | _, "net_listening" => some 0
  | _, "net_version" => some 0
  | _, "test" => some 0
  | _, "trace_block" => some 24
  | _, "trace_call" => some 75
  | _, "trace_filter" => some 75
  | _, "trace_get" => some 17
  | _, "trace_rawTransaction" => some 75
  | _, "trace_replayBlockTransactions" => some 2983
  | _, "trace_replayTransaction" => some 2983
  | _, "trace_transaction" => some 26
  | _, "web3_clientVersion" => some 15
  | _, "web3_sha3" => some 15
  | _, _ => none

/-- `method.ends_with(')')`, the subscription-response test of
`ComputeUnit::new`. -/
def strEndsWithParen (s : String) : Bool :=
  match s.data.getLast? with
  | some c => c == ')'
  | none => false

namespace ComputeUnit

/-- `ComputeUnit::subscription_response` (compute_units.rs lines 119-123):
`num_bytes * Decimal::new(4, 2)`, i.e. 0.04 CU per byte. `Decimal` is exact
decimal arithmetic, modelled as ℚ. -/
def subscription_response (num_bytes : ℚ) : ℚ :=
  num_bytes * (4 / 100)

/-- `ComputeUnit::unimplemented` (compute_units.rs lines 125-128):
an unimplemented method costs 2 CU. -/
def unimplemented : ℚ := 2

/-- `ComputeUnit::new` (compute_units.rs lines 17-116): subscription
responses are priced per byte; table methods get their table cost;
everything else is priced as unimplemented. -/
def new (method : String) (chain_id : Nat) (response_bytes : Nat) : ℚ :=
  if strEndsWithParen method then subscription_response response_bytes
  else
    match cuTable chain_id method with
    | some cu => (cu : ℚ)
    | none => unimplemented

/-- `ComputeUnit::cost` (compute_units.rs lines 133-148): multiply by the
price per CU, then by 2.5 for archive requests, then by 0.75 for cache
hits. -/
def cost (cu : ℚ) (archive_request : Bool) (cache_hit : Bool) (usd_per_cu : ℚ) : ℚ :=
  let c := cu * usd_per_cu
  let c := if archive_request then c * (5 / 2) else c
  if cache_hit then c * (3 / 4) else c

end ComputeUnit

/-- C10: compute-unit pricing is exact decimal arithmetic with
multiplicative modifiers: for every CU amount and price, the cache-hit cost
is 0.75 times the non-hit cost, the archive cost is 2.5 times the
non-archive cost, the two modifiers compose multiplicatively on the base
cost, and a method outside the pricing table (and not a subscription
response) always costs exactly 2 CU before modifiers. -/
theorem compute_unit_cost_modifiers :
    (∀ (cu usd : ℚ) (a : Bool),
      ComputeUnit.cost cu a true usd = (3 / 4) * ComputeUnit.cost cu a false usd) ∧
    (∀ (cu usd : ℚ) (c : Bool),
      ComputeUnit.cost cu true c usd = (5 / 2) * ComputeUnit.cost cu false c usd) ∧
    (∀ cu usd : ℚ,
      ComputeUnit.cost cu true true usd = (5 / 2) * ((3 / 4) * (cu * usd))) ∧
    ComputeUnit.unimplemented = 2 ∧
    (∀ (chain_id : Nat) (method : String) (response_bytes : Nat),
      cuTable chain_id method = none → strEndsWithParen method = false →
      ComputeUnit.new method chain_id response_bytes = 2) := by
  refine ⟨?_, ?_, ?_, rfl, ?_⟩
  · intro cu usd a
    cases a <;> simp [ComputeUnit.cost] <;> ring
  · intro cu usd c
    cases c <;> simp [ComputeUnit.cost] <;> ring
  · intro cu usd
    simp [ComputeUnit.cost]
    ring
  · intro chain_id method response_bytes ht hp
    simp [ComputeUnit.new, ComputeUnit.unimplemented, hp, ht]

/-- Witness for C10 at concrete inputs: an `eth_call` (26 CU) archive
cache-hit at one dollar per CU, and an unknown method priced at 2 CU. -/
theorem compute_unit_cost_modifiers_witness :
    ComputeUnit.cost 26 true true 1 = (3 / 4) * ComputeUnit.cost 26 true false 1 ∧
    ComputeUnit.cost 26 true false 1 = (5 / 2) * ComputeUnit.cost 26 false false 1 ∧
    ComputeUnit.new ("eth_fooBar") 1 0 = 2 :=
  ⟨compute_unit_cost_modifiers.1 26 1 true,
    compute_unit_cost_modifiers.2.1 26 1 false,
    compute_unit_cost_modifiers.2.2.2.2 1 ("eth_fooBar") 0 rfl rfl⟩

end Web3Proxy
